import Mathlib

/-!
Verification of the gltf-viewer tutorial application
(`src/apps/gltf-viewer/ViewerApplication.cpp`) against its specification.

The OpenGL side effects of the program are modelled as explicit traces of
`GLCmd` values, the tinygltf `Model` as a plain record of lists, and the
frame loop as a function from a list of per-frame inputs to a list of
per-frame event traces.
-/

namespace GltfViewer

/-- Scalar coordinates of the camera are modelled as rationals (the program
uses `float`, whose values here are only ever copied, never computed with). -/
structure Vec3 where
  x : ℚ
  y : ℚ
  z : ℚ
deriving DecidableEq

/-- The `Camera` of `utils/cameras.hpp`: eye position, look-at center, up vector. -/
structure Camera where
  eye : Vec3
  center : Vec3
  up : Vec3
deriving DecidableEq

/-- 4x4 matrix of rationals, standing in for `glm::mat4`. -/
def Mat4 : Type := Fin 4 → Fin 4 → ℚ

/-- Value of `glm::mat4(1)`, the identity matrix. -/
def mat4id : Mat4 := fun i j => if i = j then 1 else 0

/-- A draw call as the scene-graph traversal would emit it: the vertex-array
handle that is bound and the accumulated world transform. -/
structure DrawCall where
  vao : Nat
  worldTransform : Mat4

/-- Translation of `tinygltf::Buffer`: raw bytes as a list of byte values. -/
structure Buffer where
  data : List Nat
deriving DecidableEq

/-- Translation of `tinygltf::BufferView`. -/
structure BufferView where
  buffer : Nat
  byteOffset : Nat
  byteLength : Nat
  byteStride : Nat
deriving DecidableEq

/-- The element type of a `tinygltf::Accessor`. -/
inductive AccessorType where
  | scalar
  | vec2
  | vec3
  | vec4
  | mat2
  | mat3
  | mat4
deriving DecidableEq

/-- The integer code tiny_gltf.h stores in `Accessor::type`
(the TINYGLTF_TYPE_* defines): VEC2 = 2, VEC3 = 3, VEC4 = 4,
MAT2 = 32 + 2, MAT3 = 32 + 3, MAT4 = 32 + 4, SCALAR = 64 + 1. -/
def tinygltfTypeCode : AccessorType → Nat
  | .scalar => 65
  | .vec2 => 2
  | .vec3 => 3
  | .vec4 => 4
  | .mat2 => 34
  | .mat3 => 35
  | .mat4 => 36

/-- The element cardinality of an accessor type as the specification states
it: scalar → 1, vec2 → 2, vec3 → 3, vec4 → 4 (matrices hold their entry
count). This is the spec-side notion, to be compared with what the code
actually passes to the GPU. -/
def numComponents : AccessorType → Nat
  | .scalar => 1
  | .vec2 => 2
  | .vec3 => 3
  | .vec4 => 4
  | .mat2 => 4
  | .mat3 => 9
  | .mat4 => 16

/-- Translation of `tinygltf::Accessor` (the fields the viewer reads). -/
structure Accessor where
  bufferView : Nat
  byteOffset : Nat
  componentType : Nat
  type : AccessorType
  count : Nat
deriving DecidableEq

/-- Translation of `tinygltf::Primitive`: attribute map (semantic name to
accessor index)
and the optional index accessor (`-1` means non-indexed). -/
structure Primitive where
  attributes : List (String × Nat)
  indices : Int
deriving DecidableEq

/-- Translation of `tinygltf::Mesh`. -/
structure Mesh where
  primitives : List Primitive
deriving DecidableEq

/-- Translation of `tinygltf::Node` (the fields relevant to traversal).
Here `mesh = -1` means
the node references no mesh. -/
structure Node where
  mesh : Int := -1
  children : List Nat := []
  translation : List ℚ := []
  rotation : List ℚ := []
  scale : List ℚ := []
  matrix : List ℚ := []
deriving DecidableEq

/-- Translation of `tinygltf::Scene`: the root node index list. -/
structure Scene where
  nodes : List Int
deriving DecidableEq

/-- Translation of `tinygltf::Model` (the fields the viewer reads), where
`defaultScene = -1` is
the "no default scene" sentinel. -/
structure Model where
  buffers : List Buffer := []
  bufferViews : List BufferView := []
  accessors : List Accessor := []
  meshes : List Mesh := []
  nodes : List Node := []
  scenes : List Scene := []
  defaultScene : Int := -1
deriving DecidableEq

/-- Fallback values used when translating C++ `operator[]` on vectors into
total functions; the claims only ever exercise in-bounds indices. -/
def defaultAccessor : Accessor := ⟨0, 0, 0, .scalar, 0⟩

def defaultBufferView : BufferView := ⟨0, 0, 0, 0⟩

def defaultBuffer : Buffer := ⟨[]⟩

def defaultPrimitive : Primitive := ⟨[], -1⟩

def defaultScene' : Scene := ⟨[]⟩

/-- GLenum GL_ARRAY_BUFFER. -/
def GL_ARRAY_BUFFER : Nat := 34962

/-- GLenum GL_ELEMENT_ARRAY_BUFFER. -/
def GL_ELEMENT_ARRAY_BUFFER : Nat := 34963

/-- GLenum GL_FLOAT. -/
def GL_FLOAT : Nat := 5126

/-- The OpenGL commands the viewer issues while building GPU resources,
modelled as trace elements. -/
inductive GLCmd where
  | bindBuffer (target : Nat) (buffer : Nat)
  | bufferStorage (target : Nat) (size : Nat) (data : List Nat) (flags : Nat)
  | enableVertexAttribArray (index : Nat)
  | vertexAttribPointer (index : Nat) (size : Nat) (compType : Nat)
      (normalized : Bool) (stride : Nat) (pointer : Nat)
  | bindVertexArray (array : Nat)
deriving DecidableEq

/-- The two commands `createBufferObjects` issues for buffer `i` inside its
loop: bind buffer object `i`, then `glBufferStorage` with the buffer's byte
size, its raw bytes, and flags `0` (immutable storage, no mutation flags). -/
def bufferUploadCmds (model : Model) (bo : List Nat) (i : Nat) : List GLCmd :=
  [GLCmd.bindBuffer GL_ARRAY_BUFFER (bo.getD i 0),
   GLCmd.bufferStorage GL_ARRAY_BUFFER
     (model.buffers.getD i defaultBuffer).data.length
     (model.buffers.getD i defaultBuffer).data 0]

/-- Translation of `ViewerApplication::createBufferObjects`, where
`glGenBuffers` is modelled as
handing out the consecutive handles `firstHandle, firstHandle + 1, ...`
(GL buffer names are opaque; only their identity matters). Returns the
handle vector and the GL command trace. -/
def createBufferObjects (model : Model) (firstHandle : Nat) :
    List Nat × List GLCmd :=
  let len := model.buffers.length
  let bo := (List.range len).map (fun i => firstHandle + i)
  (bo, (List.range len).flatMap (bufferUploadCmds model bo) ++
    [GLCmd.bindBuffer GL_ARRAY_BUFFER 0])

/-- Translation of `vao_init`: configure one named vertex attribute of one
primitive.
If the semantic `str` is absent from the primitive's attribute map the
function does nothing; otherwise it enables attribute slot `index`, binds
the attribute's buffer object, and calls `glVertexAttribPointer` with
size `accessor.type` (the raw tinygltf type code), the accessor's component
type, `GL_FALSE` for normalized, the buffer view's `byteStride`, and the
absolute offset `bufferView.byteOffset + accessor.byteOffset`. -/
def vao_init (model : Model) (primitive : Primitive) (bufferObjects : List Nat)
    (str : String) (index : Nat) : List GLCmd :=
  match primitive.attributes.lookup str with
  | none => []
  | some accessorIdx =>
    let accessor := model.accessors.getD accessorIdx defaultAccessor
    let bufferView := model.bufferViews.getD accessor.bufferView defaultBufferView
    let bufferIdx := bufferView.buffer
    [GLCmd.enableVertexAttribArray index,
     GLCmd.bindBuffer GL_ARRAY_BUFFER (bufferObjects.getD bufferIdx 0),
     GLCmd.vertexAttribPointer index (tinygltfTypeCode accessor.type)
       accessor.componentType false bufferView.byteStride
       (bufferView.byteOffset + accessor.byteOffset)]

/-- Modelled from the spec: the OpenGL semantics of the `stride` argument of
`glVertexAttribPointer` — a stride of `0` means the attribute is tightly
packed, i.e. the GPU uses the element's own byte size as the stride. -/
def glEffectiveStride (stride elementSize : Nat) : Nat :=
  if stride = 0 then elementSize else stride

/-- The command sequence the inner loop of `createVertexArrayObjects` issues
for one primitive: bind its vertex array, run `vao_init` for POSITION at
slot 0, NORMAL at slot 1 and TEXCOORD_0 at slot 2, then bind the index
buffer when the primitive is indexed. -/
def primitiveSetup (model : Model) (bufferObjects : List Nat) (vao : Nat)
    (primitive : Primitive) : List GLCmd :=
  GLCmd.bindVertexArray vao ::
  (vao_init model primitive bufferObjects ("POSITION") 0 ++
   vao_init model primitive bufferObjects ("NORMAL") 1 ++
   vao_init model primitive bufferObjects ("TEXCOORD_0") 2 ++
   (if 0 ≤ primitive.indices then
      let accessor := model.accessors.getD primitive.indices.toNat defaultAccessor
      let bufferView := model.bufferViews.getD accessor.bufferView defaultBufferView
      [GLCmd.bindBuffer GL_ELEMENT_ARRAY_BUFFER
        (bufferObjects.getD bufferView.buffer 0)]
    else []))

/-- The inner `for (k = 0; k < primitive_len; ++k)` loop of
`createVertexArrayObjects`: primitive `k` is configured on the vertex array
stored at position `offset + k` of the vertex-array vector `vaos`. -/
def cvaoInner (model : Model) (bufferObjects : List Nat) (vaos : List Nat)
    (offset k : Nat) : List Primitive → List GLCmd
  | [] => []
  | primitive :: rest =>
      primitiveSetup model bufferObjects (vaos.getD (offset + k) 0) primitive ++
      cvaoInner model bufferObjects vaos offset (k + 1) rest

/-- The mutable state of `createVertexArrayObjects`'s outer loop:
the growing vertex-array vector, the growing `meshIndexToVaoRange` vector,
the next fresh GL vertex-array name, and the GL command trace so far. -/
structure VaoRange where
  begin : Nat
  count : Nat
deriving DecidableEq

structure CvaoState where
  vertexArrayObjects : List Nat
  meshIndexToVaoRange : List VaoRange
  nextVao : Nat
  trace : List GLCmd
deriving DecidableEq

/-- One iteration of the outer mesh loop of `createVertexArrayObjects`:
record the VaoRange `{begin := offset, count := primitive_len}`, extend the
vertex-array vector by `primitive_len` freshly generated handles
(`glGenVertexArrays` modelled as a counter), then run the inner primitive
loop. -/
def cvaoMesh (model : Model) (bufferObjects : List Nat) (st : CvaoState)
    (m : Mesh) : CvaoState :=
  let offset := st.vertexArrayObjects.length
  let primitive_len := m.primitives.length
  let vaos := st.vertexArrayObjects ++
    (List.range primitive_len).map (fun k => st.nextVao + k)
  { vertexArrayObjects := vaos
    meshIndexToVaoRange := st.meshIndexToVaoRange ++ [⟨offset, primitive_len⟩]
    nextVao := st.nextVao + primitive_len
    trace := st.trace ++ cvaoInner model bufferObjects vaos offset 0 m.primitives }

/-- The outer mesh loop. -/
def cvaoGo (model : Model) (bufferObjects : List Nat) :
    CvaoState → List Mesh → CvaoState
  | st, [] => st
  | st, m :: ms => cvaoGo model bufferObjects (cvaoMesh model bufferObjects st m) ms

/-- The outputs of `ViewerApplication::createVertexArrayObjects`: the
returned vertex-array vector, the out-parameter `meshIndexToVaoRange`, and
the GL command trace (ending in the final `glBindVertexArray(0)`). -/
structure CvaoOut where
  vertexArrayObjects : List Nat
  meshIndexToVaoRange : List VaoRange
  trace : List GLCmd
deriving DecidableEq

def createVertexArrayObjects (model : Model) (bufferObjects : List Nat) :
    CvaoOut :=
  let st := cvaoGo model bufferObjects ⟨[], [], 0, []⟩ model.meshes
  ⟨st.vertexArrayObjects, st.meshIndexToVaoRange,
   st.trace ++ [GLCmd.bindVertexArray 0]⟩

/-! ### Proof-support shapes for `createVertexArrayObjects`

Closed forms for the loop outputs, defined by structural recursion over the
mesh list; the lemmas below prove the loop produces exactly these. -/

/-- Number of primitives of each mesh, summed. -/
def sumPrims (ms : List Mesh) : Nat := (ms.map (fun m => m.primitives.length)).sum

/-- The vertex-array handles generated for meshes `ms` when the vector
already holds `start` handles. -/
def specVaos (start : Nat) : List Mesh → List Nat
  | [] => []
  | m :: ms => (List.range m.primitives.length).map (fun k => start + k) ++
      specVaos (start + m.primitives.length) ms

/-- The VaoRanges recorded for meshes `ms` starting at offset `start`. -/
def specRanges (start : Nat) : List Mesh → List VaoRange
  | [] => []
  | m :: ms => ⟨start, m.primitives.length⟩ ::
      specRanges (start + m.primitives.length) ms

/-- The GL trace of configuring primitives `ps` on the consecutive
vertex-array slots `slot, slot + 1, ...`. -/
def specPrims (model : Model) (bufferObjects : List Nat) (slot : Nat) :
    List Primitive → List GLCmd
  | [] => []
  | p :: ps => primitiveSetup model bufferObjects slot p ++
      specPrims model bufferObjects (slot + 1) ps

/-- The GL trace of configuring all primitives of all meshes `ms`, the first
mesh starting at slot `start`. -/
def specTraceMeshes (model : Model) (bufferObjects : List Nat) (start : Nat) :
    List Mesh → List GLCmd
  | [] => []
  | m :: ms => specPrims model bufferObjects start m.primitives ++
      specTraceMeshes model bufferObjects (start + m.primitives.length) ms

/-! ### Scene traversal -/

/-- The recursive `drawNode` lambda of `ViewerApplication::run`.
Its body in the source is empty (`// TODO The drawNode function`), so it
issues no draw calls whatsoever. -/
def drawNode (model : Model) (nodeIdx : Int) (parentMatrix : Mat4) :
    List DrawCall := []

/-- The `drawNode` invocations `drawScene` makes: when the model has a
default scene (`defaultScene >= 0`), one call per root node of that scene,
each with parent transform `glm::mat4(1)`; otherwise none. -/
def drawSceneRootCalls (model : Model) : List (Int × Mat4) :=
  if 0 ≤ model.defaultScene then
    (model.scenes.getD model.defaultScene.toNat defaultScene').nodes.map
      (fun nodeIdx => (nodeIdx, mat4id))
  else []

/-- The `drawScene` lambda: the draw calls produced by one frame's scene
traversal. -/
def drawScene (model : Model) : List DrawCall :=
  (drawSceneRootCalls model).flatMap (fun c => drawNode model c.1 c.2)

/-! ### Camera seeding -/

/-- The `ViewerApplication` constructor's handling of `--lookat`:
`m_userCamera` is set (and `m_hasUserCamera` raised) exactly when
`lookatArgs` is nonempty, from its first nine components. -/
def ctorUserCamera (lookatArgs : List ℚ) : Option Camera :=
  if lookatArgs.isEmpty then none
  else some
    ⟨⟨lookatArgs.getD 0 0, lookatArgs.getD 1 0, lookatArgs.getD 2 0⟩,
     ⟨lookatArgs.getD 3 0, lookatArgs.getD 4 0, lookatArgs.getD 5 0⟩,
     ⟨lookatArgs.getD 6 0, lookatArgs.getD 7 0, lookatArgs.getD 8 0⟩⟩

/-- The camera `run` hands to `cameraController.setCamera` before the frame
loop: the user camera when one was given on the command line, else the fixed
default `Camera{(0,0,0), (0,0,-1), (0,1,0)}`. -/
def runSeededCamera (userCamera : Option Camera) : Camera :=
  match userCamera with
  | some c => c
  | none => ⟨⟨0, 0, 0⟩, ⟨0, 0, -1⟩, ⟨0, 1, 0⟩⟩

/-- Composition of the constructor and `run`'s seeding. -/
def seededCamera (lookatArgs : List ℚ) : Camera :=
  runSeededCamera (ctorUserCamera lookatArgs)

/-! ### The frame loop -/

/-- Per-frame external input: whether the debug overlay claims pointer or
keyboard focus, and the elapsed time measured for the frame. -/
structure FrameInput where
  guiHasFocus : Bool
  elapsed : ℚ
deriving DecidableEq

/-- The observable steps of one iteration of `run`'s frame loop. -/
inductive FrameEvent where
  | getCameraSnapshot (camera : Camera)
  | drawSceneCall (camera : Camera)
  | imguiFrame
  | pollEvents
  | controllerUpdate (dt : ℚ)
  | swapBuffers
deriving DecidableEq

/-- Whether an event is a `cameraController.update` call. -/
def isUpdateEvent : FrameEvent → Bool
  | .controllerUpdate _ => true
  | _ => false

/-- The events of one frame-loop iteration, in source order: snapshot the
camera (`cameraController.getCamera()`), draw the scene with that snapshot,
render the GUI, poll events, call `cameraController.update` only when the
GUI does not have focus, swap buffers. -/
def frameTrace (camera : Camera) (inp : FrameInput) : List FrameEvent :=
  [FrameEvent.getCameraSnapshot camera, FrameEvent.drawSceneCall camera,
   FrameEvent.imguiFrame, FrameEvent.pollEvents] ++
  (if inp.guiHasFocus then [] else [FrameEvent.controllerUpdate inp.elapsed]) ++
  [FrameEvent.swapBuffers]

/-- The camera state after one iteration: updated by the controller (with
behavior `upd`, abstract here — `FirstPersonCameraController::update` lives
outside this translation unit) only when the GUI does not have focus. -/
def frameCameraAfter (upd : Camera → ℚ → Camera) (camera : Camera)
    (inp : FrameInput) : Camera :=
  if inp.guiHasFocus then camera else upd camera inp.elapsed

/-- The frame loop of `run`: one event trace per iteration, threading the
camera-controller state. -/
def runLoop (upd : Camera → ℚ → Camera) (camera : Camera) :
    List FrameInput → List (List FrameEvent)
  | [] => []
  | inp :: rest =>
      frameTrace camera inp :: runLoop upd (frameCameraAfter upd camera inp) rest

/-- The camera-controller state after processing a list of frame inputs. -/
def camAfter (upd : Camera → ℚ → Camera) (camera : Camera) :
    List FrameInput → Camera
  | [] => camera
  | inp :: rest => camAfter upd (frameCameraAfter upd camera inp) rest

/-! ### Loading and `run` -/

/-- What `tinygltf::TinyGLTF::LoadASCIIFromFile` hands back: the success
flag and the error and warning strings (empty string = none). -/
structure LoaderResult where
  ret : Bool
  err : String
  warn : String
deriving DecidableEq

/-- Translation of `ViewerApplication::loadGltfFile`: returns the loader's
success flag,
and writes the error and warning strings, when nonempty, to `std::cerr`. -/
def loadGltfFile (r : LoaderResult) : Bool × List String :=
  (r.ret,
    (if r.err = ("") then [] else [("Error: ") ++ r.err]) ++
    (if r.warn = ("") then [] else [("Warning: ") ++ r.warn]))

/-- Translation of `ViewerApplication::run`, abstracted over the loader
outcome, the
camera-controller update behavior and the per-frame inputs. Returns the
process exit code, the lines written to `std::cerr`, and the frame traces.
On load failure it prints a diagnostic and returns `-1` before the frame
loop; otherwise the loop runs to window close and `run` returns `0`. -/
def run (r : LoaderResult) (lookatArgs : List ℚ) (upd : Camera → ℚ → Camera)
    (frames : List FrameInput) : Int × List String × List (List FrameEvent) :=
  let camera := seededCamera lookatArgs
  let load := loadGltfFile r
  if load.1 then (0, load.2, runLoop upd camera frames)
  else (-1, load.2 ++ [("Failed to load glTF model")], [])

/-! ### Concrete inputs for witnesses and counterexamples -/

/-- A vec3 float accessor over buffer view 0 (as a POSITION accessor of a
real model would be). -/
def demoAccessorVec3 : Accessor := ⟨0, 0, GL_FLOAT, .vec3, 3⟩

/-- A deliberately scalar-typed accessor: tinygltf stores type code 65. -/
def demoAccessorScalar : Accessor := ⟨0, 0, GL_FLOAT, .scalar, 3⟩

def demoBufferView : BufferView := ⟨0, 0, 36, 0⟩

def demoBuffer : Buffer := ⟨List.replicate 36 0⟩

/-- A primitive carrying only a POSITION attribute (accessor 0), no NORMAL,
no TEXCOORD_0, non-indexed. -/
def demoPrimitive : Primitive := ⟨[(("POSITION"), 0)], -1⟩

/-- The scene of testable property C1: node 0 ("A") has no mesh and one
child, node 1 ("B") carries translation (1,0,0) and mesh 0 with exactly one
primitive; the default scene's root list is `[0]`. -/
def demoModelAB : Model :=
  { buffers := [demoBuffer]
    bufferViews := [demoBufferView]
    accessors := [demoAccessorVec3]
    meshes := [⟨[demoPrimitive]⟩]
    nodes := [{ mesh := -1, children := [1] },
              { mesh := 0, translation := [1, 0, 0] }]
    scenes := [⟨[0]⟩]
    defaultScene := 0 }

/-- Buffer-object handles for the demo models (one buffer). -/
def demoBO : List Nat := [10]

/-- A model with two meshes of two and one primitives, for exercising the
VaoRange invariants. -/
def demoModelTwoMeshes : Model :=
  { buffers := [demoBuffer]
    bufferViews := [demoBufferView]
    accessors := [demoAccessorVec3]
    meshes := [⟨[demoPrimitive, demoPrimitive]⟩, ⟨[demoPrimitive]⟩]
    defaultScene := -1 }

/-- A model with two buffers of different sizes. -/
def demoModelTwoBuffers : Model :=
  { buffers := [⟨[1, 2, 3, 4]⟩, ⟨[5, 6]⟩] }

/-- A model whose POSITION accessor is scalar-typed. -/
def demoModelScalar : Model :=
  { buffers := [demoBuffer]
    bufferViews := [demoBufferView]
    accessors := [demoAccessorScalar]
    meshes := [⟨[demoPrimitive]⟩]
    defaultScene := -1 }

/-- A model that declares no default scene (negative sentinel) yet has a
scene with a root node. -/
def demoModelNoDefault : Model :=
  { nodes := [{ mesh := -1 }]
    scenes := [⟨[0]⟩]
    defaultScene := -1 }

/-- A camera-controller update behavior for witnesses: moves the eye by dt
along x (any concrete behavior works; the theorems hold for all). -/
def demoUpd : Camera → ℚ → Camera :=
  fun c dt => ⟨⟨c.eye.x + dt, c.eye.y, c.eye.z⟩, c.center, c.up⟩

def demoCam : Camera := ⟨⟨0, 0, 5⟩, ⟨0, 0, 0⟩, ⟨0, 1, 0⟩⟩

/-- Two frames: in the first the GUI does not have focus (so the controller
updates), in the second it does. -/
def demoFrames : List FrameInput := [⟨false, 1⟩, ⟨true, 2⟩]

def demoLoaderOk : LoaderResult := ⟨true, (""), ("")⟩

def demoLoaderWarn : LoaderResult := ⟨true, (""), ("missing extension")⟩

def demoLoaderFail : LoaderResult := ⟨false, ("parse error"), ("")⟩

/-! ## Helper lemmas -/

theorem getD_map_range (f : Nat → Nat) (len i : Nat) (h : i < len) :
    ((List.range len).map f).getD i 0 = f i := by
  simp [List.getD_eq_getElem?_getD, List.getElem?_range h]

/-! ## Claim theorems -/

/-- C1: the spec requires the traversal of the scene "node A (no mesh) with
child B (translation (1,0,0), one-primitive mesh)" to issue exactly one draw
call with world transform translate(1,0,0). The code's `drawNode` body is
empty (a TODO stub), so `drawScene` issues zero draw calls on that scene:
the code contradicts the specified intent. -/
theorem claim1_no_draw_emitted :
    drawScene demoModelAB = [] ∧ (drawScene demoModelAB).length ≠ 1 := by
  constructor
  · rfl
  · intro h
    simp [drawScene, drawSceneRootCalls, demoModelAB, drawNode] at h

/-- C7: if the model declares no default scene (negative sentinel), the
per-frame draw routine makes no `drawNode` call and issues no draw call;
otherwise it calls `drawNode` exactly on the default scene's root node
list, each root with the identity parent transform. -/
theorem claim7_default_scene (model : Model) :
    (model.defaultScene < 0 →
      drawSceneRootCalls model = [] ∧ drawScene model = []) ∧
    (0 ≤ model.defaultScene →
      drawSceneRootCalls model =
        (model.scenes.getD model.defaultScene.toNat defaultScene').nodes.map
          (fun nodeIdx => (nodeIdx, mat4id)) ∧
      ∀ c ∈ drawSceneRootCalls model, c.2 = mat4id) := by
  constructor
  · intro h
    have hn : ¬ 0 ≤ model.defaultScene := by omega
    refine ⟨?_, ?_⟩
    · simp [drawSceneRootCalls, hn]
    · simp [drawScene, drawSceneRootCalls, hn]
  · intro h
    refine ⟨by simp [drawSceneRootCalls, h], ?_⟩
    intro c hc
    simp [drawSceneRootCalls, h] at hc
    obtain ⟨n, -, rfl⟩ := hc
    rfl

/-- Witness for C7 at a concrete model with the negative sentinel. -/
theorem claim7_witness :
    demoModelNoDefault.defaultScene < 0 ∧
    drawSceneRootCalls demoModelNoDefault = [] :=
  ⟨by decide, ((claim7_default_scene demoModelNoDefault).1 (by decide)).1⟩

/-- C8: a nine-component `--lookat` list seeds the camera controller, before
the frame loop, with eye = components 0-2, center = components 3-5,
up = components 6-8; with a successful load the frame loop then runs from
exactly that camera. -/
theorem claim8_lookat_seeding (a0 a1 a2 a3 a4 a5 a6 a7 a8 : ℚ) :
    seededCamera [a0, a1, a2, a3, a4, a5, a6, a7, a8] =
      ⟨⟨a0, a1, a2⟩, ⟨a3, a4, a5⟩, ⟨a6, a7, a8⟩⟩ ∧
    (∀ (r : LoaderResult) (upd : Camera → ℚ → Camera) (frames : List FrameInput),
      r.ret = true →
      (run r [a0, a1, a2, a3, a4, a5, a6, a7, a8] upd frames).2.2 =
        runLoop upd ⟨⟨a0, a1, a2⟩, ⟨a3, a4, a5⟩, ⟨a6, a7, a8⟩⟩ frames) := by
  refine ⟨rfl, ?_⟩
  intro r upd frames hr
  simp [run, loadGltfFile, hr]
  rfl

/-- Witness for C8: `--lookat 0,0,5,0,0,0,0,1,0` yields eye (0,0,5),
center (0,0,0), up (0,1,0). -/
theorem claim8_witness :
    seededCamera [0, 0, 5, 0, 0, 0, 0, 1, 0] =
      ⟨⟨0, 0, 5⟩, ⟨0, 0, 0⟩, ⟨0, 1, 0⟩⟩ :=
  (claim8_lookat_seeding 0 0 5 0 0 0 0 1 0).1

/-- C10: with no look-at triple on the command line, the controller is
seeded with the fixed default camera eye (0,0,0), center (0,0,-1),
up (0,1,0); the seeding consumes nothing of the loaded scene, and with a
successful load the frame loop runs from exactly that camera. -/
theorem claim10_default_camera :
    seededCamera [] = ⟨⟨0, 0, 0⟩, ⟨0, 0, -1⟩, ⟨0, 1, 0⟩⟩ ∧
    (∀ (r : LoaderResult) (upd : Camera → ℚ → Camera) (frames : List FrameInput),
      r.ret = true →
      (run r [] upd frames).2.2 =
        runLoop upd ⟨⟨0, 0, 0⟩, ⟨0, 0, -1⟩, ⟨0, 1, 0⟩⟩ frames) := by
  refine ⟨rfl, ?_⟩
  intro r upd frames hr
  simp [run, loadGltfFile, hr]
  rfl

/-- Witness for C10 at a concrete loader outcome and frame list. -/
theorem claim10_witness :
    demoLoaderOk.ret = true ∧
    (run demoLoaderOk [] demoUpd demoFrames).2.2 =
      runLoop demoUpd ⟨⟨0, 0, 0⟩, ⟨0, 0, -1⟩, ⟨0, 1, 0⟩⟩ demoFrames :=
  ⟨rfl, (claim10_default_camera.2 demoLoaderOk demoUpd demoFrames rfl)⟩

/-- C9: `run` returns -1 exactly when loading fails, in that case after
writing "Failed to load glTF model" to the error stream; it returns 0 on
normal shutdown; loader warnings are written to the error stream but never
make loading fail nor `run` return nonzero. -/
theorem claim9_exit_codes (r : LoaderResult) (lookatArgs : List ℚ)
    (upd : Camera → ℚ → Camera) (frames : List FrameInput) :
    ((run r lookatArgs upd frames).1 < 0 ↔ r.ret = false) ∧
    (r.ret = false →
      (run r lookatArgs upd frames).1 = -1 ∧
      ("Failed to load glTF model") ∈ (run r lookatArgs upd frames).2.1) ∧
    (r.ret = true → (run r lookatArgs upd frames).1 = 0) ∧
    (¬ r.warn = ("") →
      (loadGltfFile r).1 = r.ret ∧
      ("Warning: ") ++ r.warn ∈ (loadGltfFile r).2 ∧
      (r.ret = true → (run r lookatArgs upd frames).1 = 0)) := by
  cases hr : r.ret
  · refine ⟨by simp [run, loadGltfFile, hr], ?_, by simp [hr], ?_⟩
    · intro _
      simp [run, loadGltfFile, hr]
    · intro hw
      refine ⟨by simp [loadGltfFile, hr], by simp [loadGltfFile, hw], by simp [hr]⟩
  · refine ⟨by simp [run, loadGltfFile, hr], by simp [hr], ?_, ?_⟩
    · intro _
      simp [run, loadGltfFile, hr]
    · intro hw
      refine ⟨by simp [loadGltfFile, hr], by simp [loadGltfFile, hw], ?_⟩
      intro _
      simp [run, loadGltfFile, hr]

/-- Witness for C9: a failing load yields -1 with the diagnostic, and a
load succeeding with a warning still yields 0. -/
theorem claim9_witness :
    demoLoaderFail.ret = false ∧
    (run demoLoaderFail [] demoUpd demoFrames).1 = -1 ∧
    ¬ demoLoaderWarn.warn = ("") ∧
    (run demoLoaderWarn [] demoUpd demoFrames).1 = 0 :=
  ⟨rfl,
   ((claim9_exit_codes demoLoaderFail [] demoUpd demoFrames).2.1 rfl).1,
   by decide,
   ((claim9_exit_codes demoLoaderWarn [] demoUpd demoFrames).2.2.2
     (by decide)).2.2 rfl⟩

/-- C3: `createBufferObjects` returns one GPU buffer handle per model
buffer; for each index i the loop issues, for handle i, a `glBufferStorage`
with size exactly buffer i's byte length, contents buffer i's raw bytes and
flags 0 (immutable storage, no mutation flags); and the whole trace is
exactly those per-buffer uploads followed by the final unbind. -/
theorem claim3_buffer_objects (model : Model) (firstHandle : Nat) :
    (createBufferObjects model firstHandle).1.length = model.buffers.length ∧
    (∀ i, i < model.buffers.length →
      (createBufferObjects model firstHandle).1.getD i 0 = firstHandle + i ∧
      bufferUploadCmds model (createBufferObjects model firstHandle).1 i =
        [GLCmd.bindBuffer GL_ARRAY_BUFFER (firstHandle + i),
         GLCmd.bufferStorage GL_ARRAY_BUFFER
           (model.buffers.getD i defaultBuffer).data.length
           (model.buffers.getD i defaultBuffer).data 0]) ∧
    (createBufferObjects model firstHandle).2 =
      (List.range model.buffers.length).flatMap
        (bufferUploadCmds model (createBufferObjects model firstHandle).1) ++
      [GLCmd.bindBuffer GL_ARRAY_BUFFER 0] := by
  refine ⟨by simp [createBufferObjects], ?_, by simp [createBufferObjects]⟩
  intro i hi
  have hv : (List.range model.buffers.length)[i]? = some i :=
    List.getElem?_range hi
  constructor
  · simp [createBufferObjects, List.getD_eq_getElem?_getD, hv]
  · simp [bufferUploadCmds, createBufferObjects, List.getD_eq_getElem?_getD, hv]

/-- Witness for C3 on a concrete two-buffer model: two handles, and the
upload of buffer 1 stores its two raw bytes with flags 0. -/
theorem claim3_witness :
    (1 : Nat) < demoModelTwoBuffers.buffers.length ∧
    (createBufferObjects demoModelTwoBuffers 7).1.length = 2 ∧
    bufferUploadCmds demoModelTwoBuffers
        (createBufferObjects demoModelTwoBuffers 7).1 1 =
      [GLCmd.bindBuffer GL_ARRAY_BUFFER 8,
       GLCmd.bufferStorage GL_ARRAY_BUFFER 2 [5, 6] 0] :=
  ⟨by decide,
   (claim3_buffer_objects demoModelTwoBuffers 7).1,
   ((claim3_buffer_objects demoModelTwoBuffers 7).2.1 1 (by decide)).2⟩

/-- C4 counterexample: the claim says the attribute configuration uses the
element cardinality derived from the accessor's type, with scalar → 1. On a
primitive whose POSITION accessor is scalar-typed, the code passes
`accessor.type` raw, i.e. tinygltf's SCALAR code 65, not the cardinality 1:
the emitted `glVertexAttribPointer` size is 65. -/
theorem claim4_counterexample :
    vao_init demoModelScalar demoPrimitive demoBO ("POSITION") 0 =
      [GLCmd.enableVertexAttribArray 0,
       GLCmd.bindBuffer GL_ARRAY_BUFFER 10,
       GLCmd.vertexAttribPointer 0 65 GL_FLOAT false 0 0] ∧
    numComponents AccessorType.scalar = 1 ∧
    vao_init demoModelScalar demoPrimitive demoBO ("POSITION") 0 ≠
      [GLCmd.enableVertexAttribArray 0,
       GLCmd.bindBuffer GL_ARRAY_BUFFER 10,
       GLCmd.vertexAttribPointer 0 (numComponents AccessorType.scalar)
         GL_FLOAT false 0 0] := by
  refine ⟨rfl, rfl, by decide⟩

/-- C4 (amended): for every attribute semantic present on a primitive, the
configuration passed to the GPU uses the accessor's raw tinygltf type code
as the size (this equals the cardinality for vec2/vec3/vec4 but is 65 for
scalar), the accessor's component type, absolute byte offset
bufferView.byteOffset + accessor.byteOffset, normalization disabled, and
the bufferView's byteStride passed verbatim (a zero stride reaches the GL
call as written and GL itself then treats the attribute as tightly
packed). -/
theorem claim4_attribute_config (model : Model) (primitive : Primitive)
    (bufferObjects : List Nat) (str : String) (index accessorIdx : Nat)
    (h : primitive.attributes.lookup str = some accessorIdx) :
    vao_init model primitive bufferObjects str index =
      [GLCmd.enableVertexAttribArray index,
       GLCmd.bindBuffer GL_ARRAY_BUFFER
         (bufferObjects.getD
           (model.bufferViews.getD
             (model.accessors.getD accessorIdx defaultAccessor).bufferView
             defaultBufferView).buffer 0),
       GLCmd.vertexAttribPointer index
         (tinygltfTypeCode
           (model.accessors.getD accessorIdx defaultAccessor).type)
         (model.accessors.getD accessorIdx defaultAccessor).componentType
         false
         (model.bufferViews.getD
           (model.accessors.getD accessorIdx defaultAccessor).bufferView
           defaultBufferView).byteStride
         ((model.bufferViews.getD
             (model.accessors.getD accessorIdx defaultAccessor).bufferView
             defaultBufferView).byteOffset +
          (model.accessors.getD accessorIdx defaultAccessor).byteOffset)] ∧
    (∀ elementSize : Nat,
      (model.bufferViews.getD
        (model.accessors.getD accessorIdx defaultAccessor).bufferView
        defaultBufferView).byteStride = 0 →
      glEffectiveStride
        (model.bufferViews.getD
          (model.accessors.getD accessorIdx defaultAccessor).bufferView
          defaultBufferView).byteStride elementSize = elementSize) := by
  constructor
  · simp [vao_init, h]
  · intro elementSize hz
    rw [hz]
    rfl

/-- Witness for C4 on a concrete vec3 POSITION attribute: size 3 (= the raw
code = the cardinality), GL_FLOAT, offset 0, not normalized, stride 0. -/
theorem claim4_witness :
    demoPrimitive.attributes.lookup ("POSITION") = some 0 ∧
    vao_init demoModelAB demoPrimitive demoBO ("POSITION") 0 =
      [GLCmd.enableVertexAttribArray 0,
       GLCmd.bindBuffer GL_ARRAY_BUFFER 10,
       GLCmd.vertexAttribPointer 0 3 GL_FLOAT false 0 0] :=
  ⟨by decide,
   (claim4_attribute_config demoModelAB demoPrimitive demoBO
     ("POSITION") 0 0 (by decide)).1⟩

/-- C6: on a primitive with POSITION but no NORMAL, `vao_init` for NORMAL
touches nothing (slot 1 stays disabled), vertex-array construction still
completes and yields a handle for the primitive with its VaoRange — that
much matches the claim — but the claim's final clause fails: no draw call
is issued during traversal, because `drawNode`'s body is empty (TODO). -/
theorem claim6_missing_normal :
    vao_init demoModelAB demoPrimitive demoBO ("NORMAL") 1 = [] ∧
    (createVertexArrayObjects demoModelAB demoBO).vertexArrayObjects = [0] ∧
    (createVertexArrayObjects demoModelAB demoBO).meshIndexToVaoRange =
      [⟨0, 1⟩] ∧
    drawScene demoModelAB = [] :=
  ⟨by decide, by decide, by decide, rfl⟩

/-- The event trace of frame `n` of the loop, as a function of the camera
state accumulated over the earlier frames. -/
theorem runLoop_getD (upd : Camera → ℚ → Camera) :
    ∀ (inputs : List FrameInput) (camera : Camera) (n : Nat),
      n < inputs.length →
      (runLoop upd camera inputs).getD n [] =
        frameTrace (camAfter upd camera (inputs.take n))
          (inputs.getD n ⟨true, 0⟩)
  | [], _, n, h => absurd h (by simp)
  | _ :: _, _, 0, _ => rfl
  | inp :: rest, camera, n + 1, h => by
      have ih := runLoop_getD upd rest (frameCameraAfter upd camera inp) n
        (by simpa using h)
      simpa [runLoop, camAfter, List.getD_cons_succ, List.take_succ_cons]
        using ih

/-- C5: in every iteration n of the frame loop, the frame's events are:
snapshot the camera (the state accumulated over frames 0..n-1 only — one
frame of input latency), draw with exactly that snapshot, GUI, poll, then a
`cameraController.update` exactly when the overlay does not have focus,
then swap. An update event occurs in frame n iff the overlay lacks focus
there (with that frame's elapsed time), and the draw call lies strictly
before any update event of the frame. -/
theorem claim5_frame_ordering (upd : Camera → ℚ → Camera) (c0 : Camera)
    (inputs : List FrameInput) (n : Nat) (h : n < inputs.length) :
    (runLoop upd c0 inputs).getD n [] =
      frameTrace (camAfter upd c0 (inputs.take n)) (inputs.getD n ⟨true, 0⟩) ∧
    (∀ dt, FrameEvent.controllerUpdate dt ∈ (runLoop upd c0 inputs).getD n [] ↔
      ((inputs.getD n ⟨true, 0⟩).guiHasFocus = false ∧
       dt = (inputs.getD n ⟨true, 0⟩).elapsed)) ∧
    FrameEvent.drawSceneCall (camAfter upd c0 (inputs.take n)) ∈
      ((runLoop upd c0 inputs).getD n []).takeWhile
        (fun e => ! isUpdateEvent e) := by
  have hA := runLoop_getD upd inputs c0 n h
  refine ⟨hA, ?_, ?_⟩
  · intro dt
    rw [hA]
    by_cases hf : (inputs.getD n ⟨true, 0⟩).guiHasFocus <;>
      simp [frameTrace, hf]
  · rw [hA]
    by_cases hf : (inputs.getD n ⟨true, 0⟩).guiHasFocus <;>
      simp [frameTrace, hf, isUpdateEvent, List.takeWhile_cons]

/-- Witness for C5 at two concrete frames: frame 1 (GUI focused) draws with
the camera updated at the end of frame 0 and contains no update event. -/
theorem claim5_witness :
    1 < demoFrames.length ∧
    (runLoop demoUpd demoCam demoFrames).getD 1 [] =
      frameTrace (camAfter demoUpd demoCam (demoFrames.take 1))
        (demoFrames.getD 1 ⟨true, 0⟩) :=
  ⟨by decide,
   (claim5_frame_ordering demoUpd demoCam demoFrames 1 (by decide)).1⟩

/-! ### Lemmas on the `createVertexArrayObjects` loop -/

theorem sumPrims_cons (m : Mesh) (ms : List Mesh) :
    sumPrims (m :: ms) = m.primitives.length + sumPrims ms := by
  simp [sumPrims]

theorem sumPrims_append (a b : List Mesh) :
    sumPrims (a ++ b) = sumPrims a + sumPrims b := by
  simp [sumPrims]

theorem specRanges_length : ∀ (ms : List Mesh) (start : Nat),
    (specRanges start ms).length = ms.length
  | [], _ => rfl
  | m :: ms, start => by
      simp [specRanges, specRanges_length ms]

theorem specVaos_eq_range' : ∀ (ms : List Mesh) (start : Nat),
    specVaos start ms = List.range' start (sumPrims ms)
  | [], start => by simp [specVaos, sumPrims]
  | m :: ms, start => by
      rw [specVaos, specVaos_eq_range' ms, sumPrims_cons]
      rw [show (List.range m.primitives.length).map (fun k => start + k) =
            List.range' start m.primitives.length from
          (List.range'_eq_map_range start m.primitives.length).symm]
      rw [Nat.add_comm m.primitives.length (sumPrims ms)]
      exact List.range'_append_1 start m.primitives.length (sumPrims ms)

theorem specRanges_getD : ∀ (ms : List Mesh) (start i : Nat),
    i < ms.length →
    (specRanges start ms).getD i ⟨0, 0⟩ =
      ⟨start + sumPrims (ms.take i), (ms.getD i ⟨[]⟩).primitives.length⟩
  | m :: ms, start, 0, _ => by
      simp [specRanges, sumPrims]
  | m :: ms, start, i + 1, h => by
      have ih := specRanges_getD ms (start + m.primitives.length) i
        (by simpa using h)
      simp only [specRanges, List.getD_cons_succ, List.take_succ_cons,
        sumPrims_cons, ih, VaoRange.mk.injEq]
      exact ⟨by omega, trivial⟩

theorem sumPrims_take_le (ms : List Mesh) (i j : Nat) (hij : i < j)
    (hj : j ≤ ms.length) :
    sumPrims (ms.take i) + (ms.getD i ⟨[]⟩).primitives.length ≤
      sumPrims (ms.take j) := by
  have hi : i < ms.length := by omega
  have hsucc : sumPrims (ms.take (i + 1)) =
      sumPrims (ms.take i) + (ms.getD i ⟨[]⟩).primitives.length := by
    rw [List.take_succ, sumPrims_append, List.getElem?_eq_getElem hi]
    simp [sumPrims, List.getD_eq_getElem?_getD, List.getElem?_eq_getElem hi]
  have hsplit : j = (i + 1) + (j - (i + 1)) := by omega
  calc sumPrims (ms.take i) + (ms.getD i ⟨[]⟩).primitives.length
      = sumPrims (ms.take (i + 1)) := hsucc.symm
    _ ≤ sumPrims (ms.take (i + 1)) +
          sumPrims ((ms.drop (i + 1)).take (j - (i + 1))) := Nat.le_add_right _ _
    _ = sumPrims (ms.take j) := by
          conv_rhs => rw [hsplit, List.take_add, sumPrims_append]

theorem getD_append_map_range (va : List Nat) (base plen j : Nat)
    (hj : j < plen) :
    (va ++ (List.range plen).map (fun k => base + k)).getD
      (va.length + j) 0 = base + j := by
  rw [List.getD_eq_getElem?_getD, List.getElem?_append_right (by omega)]
  have hd : va.length + j - va.length = j := by omega
  rw [hd]
  simp [List.getElem?_range hj]

theorem cvaoInner_spec (model : Model) (bo vaos : List Nat) (offset : Nat) :
    ∀ (ps : List Primitive) (k : Nat),
      (∀ j, k ≤ j → j < k + ps.length → vaos.getD (offset + j) 0 = offset + j) →
      cvaoInner model bo vaos offset k ps = specPrims model bo (offset + k) ps
  | [], _, _ => rfl
  | p :: ps, k, hyp => by
      have h0 : vaos.getD (offset + k) 0 = offset + k :=
        hyp k le_rfl (by simp)
      have ih := cvaoInner_spec model bo vaos offset ps (k + 1)
        (fun j hj1 hj2 => hyp j (by omega)
          (by simp only [List.length_cons]; omega))
      simp only [cvaoInner, specPrims]
      rw [h0, ih, Nat.add_assoc]

/-- The outer loop of `createVertexArrayObjects` produces exactly the
closed-form vertex arrays, ranges and trace, provided the fresh-handle
counter agrees with the vector length (as it does from the start). -/
theorem cvaoGo_spec (model : Model) (bo : List Nat) :
    ∀ (ms : List Mesh) (st : CvaoState),
      st.nextVao = st.vertexArrayObjects.length →
      cvaoGo model bo st ms =
        ⟨st.vertexArrayObjects ++
           specVaos st.vertexArrayObjects.length ms,
         st.meshIndexToVaoRange ++
           specRanges st.vertexArrayObjects.length ms,
         st.vertexArrayObjects.length + sumPrims ms,
         st.trace ++ specTraceMeshes model bo st.vertexArrayObjects.length ms⟩
  | [], st, h => by
      cases st with
      | mk v r nv t => simp_all [cvaoGo, specVaos, specRanges, sumPrims,
          specTraceMeshes]
  | m :: ms, st, h => by
      have hlen : (cvaoMesh model bo st m).nextVao =
          (cvaoMesh model bo st m).vertexArrayObjects.length := by
        simp [cvaoMesh, h]
      have ih := cvaoGo_spec model bo ms (cvaoMesh model bo st m) hlen
      have hmv : (cvaoMesh model bo st m).vertexArrayObjects.length =
          st.vertexArrayObjects.length + m.primitives.length := by
        simp [cvaoMesh]
      have hinner : cvaoInner model bo
          (st.vertexArrayObjects ++
            (List.range m.primitives.length).map (fun k => st.nextVao + k))
          st.vertexArrayObjects.length 0 m.primitives =
          specPrims model bo st.vertexArrayObjects.length m.primitives := by
        have := cvaoInner_spec model bo
          (st.vertexArrayObjects ++
            (List.range m.primitives.length).map (fun k => st.nextVao + k))
          st.vertexArrayObjects.length m.primitives 0
          (fun j hj0 hj => by
            have hj' : j < m.primitives.length := by simpa using hj
            simpa [h] using
              getD_append_map_range st.vertexArrayObjects st.nextVao
                m.primitives.length j hj')
        simpa using this
      show cvaoGo model bo (cvaoMesh model bo st m) ms = _
      rw [ih]
      simp only [CvaoState.mk.injEq]
      refine ⟨?_, ?_, ?_, ?_⟩
      · rw [hmv]
        simp [cvaoMesh, specVaos, h, List.append_assoc]
      · rw [hmv]
        simp [cvaoMesh, specRanges, List.append_assoc]
      · rw [hmv, sumPrims_cons]
        omega
      · rw [hmv]
        simp [cvaoMesh, specTraceMeshes, hinner, List.append_assoc]

/-- C2: `createVertexArrayObjects` records one VaoRange per mesh; the total
number of generated vertex-array handles is the total primitive count, all
handles distinct (exactly one per primitive); mesh i's range has
count = its primitive count and begin = the primitive count of all earlier
meshes (so ranges are contiguous, in mesh order); ranges of distinct meshes
are disjoint; and the GL trace configures each mesh's primitives on the
consecutive slots of its range in their original declaration order. -/
theorem claim2_vao_ranges (model : Model) (bufferObjects : List Nat) :
    (createVertexArrayObjects model bufferObjects).meshIndexToVaoRange.length =
      model.meshes.length ∧
    (createVertexArrayObjects model bufferObjects).vertexArrayObjects.length =
      sumPrims model.meshes ∧
    (createVertexArrayObjects model bufferObjects).vertexArrayObjects.Nodup ∧
    (∀ i, i < model.meshes.length →
      ((createVertexArrayObjects model bufferObjects).meshIndexToVaoRange.getD
          i ⟨0, 0⟩).count = (model.meshes.getD i ⟨[]⟩).primitives.length ∧
      ((createVertexArrayObjects model bufferObjects).meshIndexToVaoRange.getD
          i ⟨0, 0⟩).begin = sumPrims (model.meshes.take i)) ∧
    (∀ i j, i < j → j < model.meshes.length →
      ((createVertexArrayObjects model bufferObjects).meshIndexToVaoRange.getD
          i ⟨0, 0⟩).begin +
        ((createVertexArrayObjects model bufferObjects).meshIndexToVaoRange.getD
          i ⟨0, 0⟩).count ≤
      ((createVertexArrayObjects model bufferObjects).meshIndexToVaoRange.getD
          j ⟨0, 0⟩).begin) ∧
    (createVertexArrayObjects model bufferObjects).trace =
      specTraceMeshes model bufferObjects 0 model.meshes ++
        [GLCmd.bindVertexArray 0] := by
  have hmain := cvaoGo_spec model bufferObjects model.meshes ⟨[], [], 0, []⟩ rfl
  have hv : (createVertexArrayObjects model bufferObjects).vertexArrayObjects =
      specVaos 0 model.meshes := by
    simp [createVertexArrayObjects, hmain]
  have hr : (createVertexArrayObjects model bufferObjects).meshIndexToVaoRange =
      specRanges 0 model.meshes := by
    simp [createVertexArrayObjects, hmain]
  have ht : (createVertexArrayObjects model bufferObjects).trace =
      specTraceMeshes model bufferObjects 0 model.meshes ++
        [GLCmd.bindVertexArray 0] := by
    simp [createVertexArrayObjects, hmain]
  refine ⟨?_, ?_, ?_, ?_, ?_, ht⟩
  · rw [hr, specRanges_length]
  · rw [hv, specVaos_eq_range', List.length_range']
  · rw [hv, specVaos_eq_range']
    exact List.nodup_range' 0 (sumPrims model.meshes)
  · intro i hi
    rw [hr, specRanges_getD model.meshes 0 i hi]
    exact ⟨rfl, by simp⟩
  · intro i j hij hj
    have hi : i < model.meshes.length := by omega
    rw [hr, specRanges_getD model.meshes 0 i hi,
      specRanges_getD model.meshes 0 j hj]
    have := sumPrims_take_le model.meshes i j hij (by omega)
    simpa using this

/-- Witness for C2 on a model with meshes of two and one primitives:
three handles in total, ranges ⟨0,2⟩ and ⟨2,1⟩, disjoint. -/
theorem claim2_witness :
    (1 : Nat) < demoModelTwoMeshes.meshes.length ∧
    ((createVertexArrayObjects demoModelTwoMeshes demoBO).meshIndexToVaoRange.getD
        1 ⟨0, 0⟩).count = 1 ∧
    ((createVertexArrayObjects demoModelTwoMeshes demoBO).meshIndexToVaoRange.getD
        1 ⟨0, 0⟩).begin = 2 ∧
    ((createVertexArrayObjects demoModelTwoMeshes demoBO).meshIndexToVaoRange.getD
        0 ⟨0, 0⟩).begin +
      ((createVertexArrayObjects demoModelTwoMeshes demoBO).meshIndexToVaoRange.getD
        0 ⟨0, 0⟩).count ≤
      ((createVertexArrayObjects demoModelTwoMeshes demoBO).meshIndexToVaoRange.getD
        1 ⟨0, 0⟩).begin :=
  ⟨by decide,
   ((claim2_vao_ranges demoModelTwoMeshes demoBO).2.2.2.1 1 (by decide)).1,
   by simpa using
     ((claim2_vao_ranges demoModelTwoMeshes demoBO).2.2.2.1 1 (by decide)).2,
   (claim2_vao_ranges demoModelTwoMeshes demoBO).2.2.2.2.1 0 1 (by decide)
     (by decide)⟩

end GltfViewer
